import Mathlib

/-!
Verification development for the LoRaWAN data-collection backend.

The definitions below are a shallow embedding of the Python sources in
`src/backend/`:

* `models_auth.py` / `models.py`   → the record types `User`, `APIKey`,
  `SensorReading` and the store `DB` (rows kept in insertion order,
  autoincrement primary keys modelled as sequential ids);
* `auth.py`                        → `decode_token`, `get_current_user`,
  `get_current_user_optional`, `authenticate_user`, token creation;
* `app.py`                         → `receive_sensor_data` (ingestion with
  dual authentication and queue-or-direct-write fallback),
  `get_sensor_data`, `get_gateways`, `get_nodes`, `get_stats`;
* `tasks.py`                       → the bounded-retry behaviour of the
  Celery task `save_sensor_data` (`max_retries = 3`, countdown `2^retries`);
* `routers/auth.py` + `rate_limiter.py` → `login` guarded by a
  sliding-window rate limiter (the window strategy itself lives in the
  external `slowapi`/`limits` library and is modelled from the spec).

Timestamps are integer seconds (`Int`).  Machine floats in measurement
payloads are modelled as `Rat`; no claim depends on float rounding.
-/

/-- Row of the `users` table (`models_auth.py`). -/
structure User where
  id : Nat
  email : String
  hashed_password : String
  is_active : Bool
deriving DecidableEq

/-- Row of the `api_keys` table (`models_auth.py`). -/
structure APIKey where
  id : Nat
  user_id : Nat
  key_value : String
  last_used_at : Option Int
  expires_at : Option Int
  is_active : Bool
deriving DecidableEq

/-- Row of the `sensor_readings` table (`models.py`).  `id` is the
autoincrement primary key, so ids increase in insertion order. -/
structure SensorReading where
  id : Nat
  user_id : Nat
  gateway_id : String
  node_id : String
  timestamp : Int
  humidity : Option Rat
  moisture : Option Rat
  temperature : Option Rat
  battery_voltage : Option Rat
  measurements : Option (List (String × Rat))
  created_at : Int
deriving DecidableEq

/-- Validated request body for `POST /api/sensor-data` (`schemas.py`,
`SensorDataInput`). -/
structure SensorDataInput where
  gateway_id : String
  node_id : String
  timestamp : Int
  humidity : Option Rat
  moisture : Option Rat
  temperature : Option Rat
  battery_voltage : Option Rat
  measurements : Option (List (String × Rat))
deriving DecidableEq

/-- The relational store: rows in insertion order. -/
structure DB where
  users : List User
  api_keys : List APIKey
  readings : List SensorReading
deriving DecidableEq

/-- A received JWT after parsing: which key it was signed with, its `sub`
claim (may be absent) and its `exp` claim.  Signature verification under
the shared secret succeeds exactly when `signedWith` is that secret. -/
structure JWT where
  signedWith : String
  sub : Option String
  exp : Int
deriving DecidableEq

/-- An HTTP error response (status code plus `detail`). -/
structure ApiError where
  status : Nat
  detail : String
deriving DecidableEq

/-- Shared signing secret (`auth.py`, `SECRET_KEY`). -/
def SECRET_KEY : String := "your-secret-key-change-this-in-production-use-env-variable"

def msgCouldNotValidate : String := "Could not validate credentials"

def msgUserNotFound : String := "User not found"

def msgInactiveUser : String := "Inactive user"

def msgInvalidKey : String := "Invalid or inactive API key"

def msgKeyExpired : String := "API key has expired"

def msgAuthRequired : String := "Authentication required. Provide X-API-Key header or Bearer token."

def msgSaved : String := "Data saved successfully"

def msgQueued : String := "Data received and queued for processing"

def msgSaveFailed : String := "Failed to save data"

def msgBadLogin : String := "Incorrect email or password"

def msgTooMany : String := "Too many requests. Please try again later."

def msgValidation : String := "Input validation failed"

/-- Update the first element satisfying `p` (SQLAlchemy `first()` row
mutation followed by `commit`). -/
def updateFirst (p : α → Bool) (f : α → α) : List α → List α
  | [] => []
  | x :: xs => if p x then f x :: xs else x :: updateFirst p f xs

theorem find?_updateFirst (p : α → Bool) (f : α → α)
    (hf : ∀ x, p x = true → p (f x) = true) :
    ∀ l : List α, (updateFirst p f l).find? p = (l.find? p).map f := by
  intro l
  induction l with
  | nil => simp [updateFirst]
  | cons x xs ih =>
    by_cases hx : p x = true
    · simp [updateFirst, hx, List.find?_cons, hf x hx]
    · have hx' : p x = false := by simpa using hx
      simp [updateFirst, hx', List.find?_cons, ih]

/-- Insertion step of one deterministic refinement of the query's
`ORDER BY timestamp DESC`: the new row is placed after every row whose
timestamp is at least as large.  The query (`app.py` line 220) has no
secondary sort key, so the store promises no particular order among equal
timestamps; this function fixes one admissible order, and the rest of the
development relies on it only through permutation-invariant facts
(membership, length, maximal head).  The contract the code does guarantee
is `admissibleOrdering` below. -/
def insertDesc (r : SensorReading) : List SensorReading → List SensorReading
  | [] => [r]
  | x :: xs => if r.timestamp ≤ x.timestamp then x :: insertDesc r xs else r :: x :: xs

/-- One deterministic refinement of the query's `ORDER BY timestamp DESC`
(non-increasing timestamps); which order equal-timestamp rows take is an
arbitrary choice of the model, not a promise of the program. -/
def sortByTimestampDesc (l : List SensorReading) : List SensorReading :=
  l.foldl (fun acc r => insertDesc r acc) []

theorem mem_insertDesc {x r : SensorReading} {l : List SensorReading} :
    x ∈ insertDesc r l ↔ x = r ∨ x ∈ l := by
  induction l with
  | nil => simp [insertDesc]
  | cons y ys ih =>
    by_cases h : r.timestamp ≤ y.timestamp
    · simp only [insertDesc, if_pos h, List.mem_cons, ih]
      tauto
    · simp only [insertDesc, if_neg h, List.mem_cons]

theorem mem_foldl_insertDesc {x : SensorReading} :
    ∀ (l acc : List SensorReading),
      x ∈ l.foldl (fun acc r => insertDesc r acc) acc → x ∈ acc ∨ x ∈ l := by
  intro l
  induction l with
  | nil => intro acc h; exact Or.inl h
  | cons r rs ih =>
    intro acc h
    rcases ih (insertDesc r acc) h with h' | h'
    · rcases mem_insertDesc.mp h' with h'' | h''
      · exact Or.inr (by simp [h''])
      · exact Or.inl h''
    · exact Or.inr (by simp [h'])

theorem mem_sortByTimestampDesc {x : SensorReading} {l : List SensorReading} :
    x ∈ sortByTimestampDesc l → x ∈ l := by
  intro h
  rcases mem_foldl_insertDesc l [] h with h' | h'
  · simp at h'
  · exact h'

/-- Faithful ordering contract of the list query (`app.py` line 220):
`ORDER BY timestamp DESC` with no secondary sort key constrains the result
to be a permutation of the eligible rows with non-increasing timestamps,
and nothing more — the relative order of rows with equal timestamps is
unspecified. -/
def admissibleOrdering (elig l : List SensorReading) : Prop :=
  l.Perm elig ∧ l.Pairwise (fun a b => b.timestamp ≤ a.timestamp)

theorem sorted_insertDesc {r : SensorReading} {l : List SensorReading}
    (hl : l.Pairwise (fun a b => b.timestamp ≤ a.timestamp)) :
    (insertDesc r l).Pairwise (fun a b => b.timestamp ≤ a.timestamp) := by
  induction l with
  | nil => simp [insertDesc]
  | cons x xs ih =>
    rcases List.pairwise_cons.mp hl with ⟨hx, hxs⟩
    by_cases h : r.timestamp ≤ x.timestamp
    · simp only [insertDesc, if_pos h]
      refine List.pairwise_cons.mpr ⟨?_, ih hxs⟩
      intro y hy
      rcases mem_insertDesc.mp hy with hy' | hy'
      · subst hy'
        exact h
      · exact hx y hy'
    · have hlt : x.timestamp < r.timestamp := lt_of_not_le h
      simp only [insertDesc, if_neg h]
      refine List.pairwise_cons.mpr ⟨?_, hl⟩
      intro y hy
      rcases List.mem_cons.mp hy with hy' | hy'
      · subst hy'
        exact le_of_lt hlt
      · exact le_trans (hx y hy') (le_of_lt hlt)

theorem sorted_foldl_insertDesc :
    ∀ (l acc : List SensorReading),
      acc.Pairwise (fun a b => b.timestamp ≤ a.timestamp) →
      (l.foldl (fun acc r => insertDesc r acc) acc).Pairwise
        (fun a b => b.timestamp ≤ a.timestamp) := by
  intro l
  induction l with
  | nil => intro acc hacc; exact hacc
  | cons r rs ih => intro acc hacc; exact ih _ (sorted_insertDesc hacc)

theorem sorted_sortByTimestampDesc (l : List SensorReading) :
    (sortByTimestampDesc l).Pairwise (fun a b => b.timestamp ≤ a.timestamp) :=
  sorted_foldl_insertDesc l [] List.Pairwise.nil

theorem perm_insertDesc (r : SensorReading) (l : List SensorReading) :
    (insertDesc r l).Perm (r :: l) := by
  induction l with
  | nil => simp [insertDesc]
  | cons x xs ih =>
    by_cases h : r.timestamp ≤ x.timestamp
    · simp only [insertDesc, if_pos h]
      exact (ih.cons x).trans (List.Perm.swap r x xs)
    · simp [insertDesc, if_neg h]

theorem perm_foldl_insertDesc :
    ∀ (l acc : List SensorReading),
      (l.foldl (fun acc r => insertDesc r acc) acc).Perm (acc ++ l) := by
  intro l
  induction l with
  | nil => intro acc; simp
  | cons r rs ih =>
    intro acc
    exact (ih (insertDesc r acc)).trans
      (((perm_insertDesc r acc).append_right rs).trans List.perm_middle.symm)

theorem perm_sortByTimestampDesc (l : List SensorReading) :
    (sortByTimestampDesc l).Perm l := by
  simpa [sortByTimestampDesc] using perm_foldl_insertDesc l []

/-- The deterministic model sort is one admissible ordering of its
input. -/
theorem admissible_sortByTimestampDesc (l : List SensorReading) :
    admissibleOrdering l (sortByTimestampDesc l) :=
  ⟨perm_sortByTimestampDesc l, sorted_sortByTimestampDesc l⟩

/-- A decoded JWT payload (`auth.py`, `decode_token` result). -/
structure JWTPayload where
  sub : Option String
  exp : Int
deriving DecidableEq

/-- Access token issuance (`auth.py`, `create_access_token` with the
default one-hour expiry). -/
def create_access_token (sub : String) (now : Int) : JWT :=
  { signedWith := SECRET_KEY, sub := some sub, exp := now + 3600 }

/-- Refresh token issuance (`auth.py`, `create_refresh_token`, 7 days). -/
def create_refresh_token (sub : String) (now : Int) : JWT :=
  { signedWith := SECRET_KEY, sub := some sub, exp := now + 7 * 86400 }

/-- Decode and verify a JWT (`auth.py`, `decode_token`): the signature must
verify under `SECRET_KEY` and the token must be unexpired (`jose` treats a
token as expired exactly when `exp < now`). -/
def decode_token (t : JWT) (now : Int) : Except ApiError JWTPayload :=
  if t.signedWith == SECRET_KEY && !(decide (t.exp < now)) then
    Except.ok { sub := t.sub, exp := t.exp }
  else
    Except.error { status := 401, detail := msgCouldNotValidate }

/-- Required ("loud") bearer resolution (`auth.py`, `get_current_user`):
decode the token, read the `sub` claim as an email, load the user, reject
inactive users. -/
def get_current_user (db : DB) (t : JWT) (now : Int) : Except ApiError User :=
  match decode_token t now with
  | Except.error e => Except.error e
  | Except.ok payload =>
    match payload.sub with
    | none => Except.error { status := 401, detail := msgCouldNotValidate }
    | some email =>
      match db.users.find? (fun u => u.email == email) with
      | none => Except.error { status := 401, detail := msgUserNotFound }
      | some u =>
        if u.is_active then Except.ok u
        else Except.error { status := 403, detail := msgInactiveUser }

/-- Optional ("silent") bearer resolution (`auth.py`,
`get_current_user_optional`): any failure yields `none`. -/
def get_current_user_optional (db : DB) (cred : Option JWT) (now : Int) : Option User :=
  match cred with
  | none => none
  | some t =>
    match decode_token t now with
    | Except.error _ => none
    | Except.ok payload =>
      match payload.sub with
      | none => none
      | some email =>
        match db.users.find? (fun u => u.email == email) with
        | none => none
        | some u => if u.is_active then some u else none

/-- Password login check (`auth.py`, `authenticate_user`): both an unknown
email and a wrong password yield `none`.  The bcrypt comparison is the
parameter `verify`. -/
def authenticate_user (verify : String → String → Bool) (users : List User)
    (email password : String) : Option User :=
  match users.find? (fun u => u.email == email) with
  | none => none
  | some u => if verify password u.hashed_password then some u else none

/-- Row predicate assembled by `GET /api/sensor-data` (`app.py`,
`get_sensor_data`): always filter by owner; gateway/node filters apply only
when the parameter is truthy (Python treats `""` as falsy); the `hours`
filter keeps rows with `timestamp >= now - hours` (an `hours` of `0` is
falsy in Python and applies no filter). -/
def readingMatches (uid : Nat) (gateway_id node_id : Option String)
    (hours : Option Int) (now : Int) (r : SensorReading) : Bool :=
  r.user_id == uid
  && (match gateway_id with
      | some g => if g == "" then true else r.gateway_id == g
      | none => true)
  && (match node_id with
      | some n => if n == "" then true else r.node_id == n
      | none => true)
  && (match hours with
      | some h => if h == 0 then true else decide (now - h * 3600 ≤ r.timestamp)
      | none => true)

/-- The rows eligible for the list endpoint before ordering and
pagination. -/
def eligibleReadings (db : DB) (uid : Nat) (gateway_id node_id : Option String)
    (hours : Option Int) (now : Int) : List SensorReading :=
  db.readings.filter (readingMatches uid gateway_id node_id hours now)

/-- `GET /api/sensor-data` (`app.py`, `get_sensor_data`): FastAPI first
validates the query parameters (`limit` in [1,1000] via `ge=1, le=1000`,
`skip ≥ 0`, `hours ≥ 1` when supplied) and rejects violations with a 422;
then the handler filters by owner and optional filters, orders by
descending timestamp and paginates with `offset`/`limit`. -/
def get_sensor_data (db : DB) (uid : Nat) (gateway_id node_id : Option String)
    (limit skip : Int) (hours : Option Int) (now : Int) :
    Except ApiError (List SensorReading) :=
  if limit < 1 || 1000 < limit then
    Except.error { status := 422, detail := msgValidation }
  else if skip < 0 then
    Except.error { status := 422, detail := msgValidation }
  else if hours.any (fun h => decide (h < 1)) then
    Except.error { status := 422, detail := msgValidation }
  else
    Except.ok
      (((sortByTimestampDesc
          (eligibleReadings db uid gateway_id node_id hours now)).drop skip.toNat).take
        limit.toNat)

/-- `GET /api/gateways` (`app.py`, `get_gateways`): distinct gateway ids of
the current user's readings. -/
def get_gateways (db : DB) (uid : Nat) : List String :=
  ((db.readings.filter (fun r => r.user_id == uid)).map (fun r => r.gateway_id)).dedup

/-- `GET /api/nodes` (`app.py`, `get_nodes`): distinct node ids of the
current user's readings, optionally restricted to one gateway (truthy
filter). -/
def get_nodes (db : DB) (uid : Nat) (gateway_id : Option String) : List String :=
  ((db.readings.filter (fun r =>
      r.user_id == uid
      && (match gateway_id with
          | some g => if g == "" then true else r.gateway_id == g
          | none => true))).map (fun r => r.node_id)).dedup

/-- Result of `GET /api/stats` (`app.py`, `get_stats`). -/
structure Stats where
  total_readings : Nat
  total_gateways : Nat
  total_nodes : Nat
  latest_reading_time : Option Int
deriving DecidableEq

/-- `GET /api/stats` (`app.py`, `get_stats`): counts and latest timestamp
over the current user's readings only. -/
def get_stats (db : DB) (uid : Nat) : Stats :=
  let owned := db.readings.filter (fun r => r.user_id == uid)
  { total_readings := owned.length
    total_gateways := ((owned.map (fun r => r.gateway_id)).dedup).length
    total_nodes := ((owned.map (fun r => r.node_id)).dedup).length
    latest_reading_time := (sortByTimestampDesc owned).head?.map (fun r => r.timestamp) }

/-- Response of `POST /api/sensor-data`. -/
inductive IngestOutcome where
  | success (message : String) (job_id : Option String)
  | failure (status : Nat) (detail : String)
deriving DecidableEq

/-- Build the `SensorReading` row persisted for an accepted submission
(`app.py` lines 159-169 and `tasks.py` lines 42-52 build the same row). -/
def mkReading (id uid : Nat) (d : SensorDataInput) (now : Int) : SensorReading :=
  { id := id
    user_id := uid
    gateway_id := d.gateway_id
    node_id := d.node_id
    timestamp := d.timestamp
    humidity := d.humidity
    moisture := d.moisture
    temperature := d.temperature
    battery_voltage := d.battery_voltage
    measurements := d.measurements
    created_at := now }

/-- Direct synchronous write (`app.py` lines 158-178): on success append
one row and answer 200 with `job_id = none`; on a persistence failure
(modelled by `storeOk = false`) roll back and answer 500. -/
def directSave (db : DB) (uid : Nat) (d : SensorDataInput) (now : Int)
    (storeOk : Bool) : DB × IngestOutcome :=
  if storeOk then
    ({ db with readings := db.readings ++ [mkReading db.readings.length uid d now] },
     IngestOutcome.success msgSaved none)
  else
    (db, IngestOutcome.failure 500 msgSaveFailed)

/-- Queue-or-direct-write decision (`app.py` lines 140-178): when Celery is
importable, try `save_sensor_data.delay`; a raised enqueue error is
swallowed and the handler falls through to the direct save.  `enqueue` is
the behaviour of the queue backend for this request: `Except.ok id` is a
successful enqueue returning a task id, `Except.error msg` is a raised
enqueue exception. -/
def ingestPipeline (db : DB) (uid : Nat) (d : SensorDataInput) (now : Int)
    (celery_available : Bool) (enqueue : Except String String) (storeOk : Bool) :
    DB × IngestOutcome :=
  if celery_available then
    match enqueue with
    | Except.ok task_id => (db, IngestOutcome.success msgQueued (some task_id))
    | Except.error _ => directSave db uid d now storeOk
  else
    directSave db uid d now storeOk

/-- Predicate used by the API key lookup in `receive_sensor_data`
(`app.py` lines 103-106): match on key value and the active flag. -/
def apiKeyLookup (k : String) (a : APIKey) : Bool :=
  a.key_value == k && a.is_active

/-- `POST /api/sensor-data` (`app.py`, `receive_sensor_data`).  Credential
resolution: a truthy `X-API-Key` header is tried first (unknown/inactive →
401, expired → 401, otherwise the key's `last_used_at` is set to `now` and
committed before anything else, and the key's owner is the principal — the
bearer token is never consulted); only with no truthy API key does the
silently-resolved bearer user apply; with neither, 401.  The authenticated
submission then runs through `ingestPipeline`. -/
def receive_sensor_data (db : DB) (x_api_key : Option String) (bearer : Option JWT)
    (d : SensorDataInput) (now : Int) (celery_available : Bool)
    (enqueue : Except String String) (storeOk : Bool) : DB × IngestOutcome :=
  match x_api_key with
  | some k =>
    if k == "" then
      match get_current_user_optional db bearer now with
      | some u => ingestPipeline db u.id d now celery_available enqueue storeOk
      | none => (db, IngestOutcome.failure 401 msgAuthRequired)
    else
      match db.api_keys.find? (apiKeyLookup k) with
      | none => (db, IngestOutcome.failure 401 msgInvalidKey)
      | some key =>
        if key.expires_at.any (fun e => decide (e < now)) then
          (db, IngestOutcome.failure 401 msgKeyExpired)
        else
          let db1 : DB :=
            { db with
                api_keys :=
                  updateFirst (apiKeyLookup k)
                    (fun a => { a with last_used_at := some now }) db.api_keys }
          match db1.users.find? (fun u => u.id == key.user_id) with
          | none => (db1, IngestOutcome.failure 401 msgAuthRequired)
          | some owner => ingestPipeline db1 owner.id d now celery_available enqueue storeOk
  | none =>
    match get_current_user_optional db bearer now with
    | some u => ingestPipeline db u.id d now celery_available enqueue storeOk
    | none => (db, IngestOutcome.failure 401 msgAuthRequired)

/-- Outcome of one queued `IngestionJob` run to completion by the Celery
worker (`tasks.py`, `save_sensor_data`). -/
structure RetryOutcome where
  attempts : Nat
  delays : List Nat
  persisted : Bool
deriving DecidableEq

/-- Celery retry loop of `save_sensor_data` (`tasks.py` lines 32-72).
`persistOk r` tells whether the database write succeeds on the execution
whose `self.request.retries` counter is `r`.  `remaining` is the number of
retries the decorator still allows (`max_retries - retries`); when a write
fails with none remaining, `self.retry` raises `MaxRetriesExceededError`
and the job is recorded as failed.  A failed write with retries remaining
reschedules with countdown `2 ^ retries` seconds. -/
def save_sensor_data_run (persistOk : Nat → Bool) :
    (remaining : Nat) → (retries : Nat) → RetryOutcome
  | 0, r => { attempts := 1, delays := [], persisted := persistOk r }
  | remaining + 1, r =>
    if persistOk r then
      { attempts := 1, delays := [], persisted := true }
    else
      let rest := save_sensor_data_run persistOk remaining (r + 1)
      { attempts := rest.attempts + 1
        delays := 2 ^ r :: rest.delays
        persisted := rest.persisted }

/-- `max_retries=3` from the `@celery_app.task` decorator in `tasks.py`. -/
def max_retries : Nat := 3

/-- One `IngestionJob` consumed from the queue: the task starts with a
fresh retry counter. -/
def runIngestionJob (persistOk : Nat → Bool) : RetryOutcome :=
  save_sensor_data_run persistOk max_retries 0

/-- Modelled from the spec (§4.5): the sliding-window state the
`slowapi`/`limits` backend keeps per client network address.  The window
strategy itself is library code outside `src/`; per the spec it counts
processed requests in the trailing window.  `hits` holds the times of
requests admitted within the current window, newest first. -/
structure LimiterState where
  hits : List Int
deriving DecidableEq

/-- Modelled from the spec (§4.5): admit a request at time `now` iff fewer
than `limit` admitted requests fall inside the trailing `window`; admitted
requests are recorded, rejected ones are not.  A hit at time `t` is inside
the window at `now` iff `now < t + window`. -/
def rl_allow (limit : Nat) (window : Int) (st : LimiterState) (now : Int) :
    Bool × LimiterState :=
  let recent := st.hits.filter (fun t => decide (now < t + window))
  if recent.length < limit then
    (true, { hits := now :: recent })
  else
    (false, { hits := recent })

/-- Response of `POST /api/auth/login`. -/
inductive LoginResult where
  | ok (access refresh : JWT)
  | err (status : Nat) (detail : String)
deriving DecidableEq

/-- Login handler body after the rate limiter admitted the request
(`routers/auth.py` lines 97-114): authenticate, then either a uniform 401
or a fresh access/refresh token pair. -/
def loginHandler (verify : String → String → Bool) (users : List User) (now : Int)
    (email password : String) : LoginResult :=
  match authenticate_user verify users email password with
  | none => LoginResult.err 401 msgBadLogin
  | some u =>
    LoginResult.ok (create_access_token u.email now) (create_refresh_token u.email now)

/-- `POST /api/auth/login` with its `5/minute` limit (`routers/auth.py`
line 74, `rate_limiter.py`): the limiter state is the one kept for the
requesting client address; an over-limit request is answered 429 by
`rate_limit_exceeded_handler` without touching credentials. -/
def login (verify : String → String → Bool) (users : List User) (st : LimiterState)
    (now : Int) (email password : String) : LimiterState × LoginResult :=
  match rl_allow 5 60 st now with
  | (true, st1) => (st1, loginHandler verify users now email password)
  | (false, st1) => (st1, LoginResult.err 429 msgTooMany)

/-- Acceptance condition of spec sentence I4, written from the spec's
words for comparison with `get_current_user`: the signature verifies under
the shared secret, the token is unexpired at verification time, and its
subject resolves to an existing, active principal at verification time. -/
def bearer_accepts_spec (db : DB) (t : JWT) (now : Int) : Bool :=
  t.signedWith == SECRET_KEY
  && decide (now ≤ t.exp)
  && (match t.sub with
      | none => false
      | some email =>
        match db.users.find? (fun u => u.email == email) with
        | none => false
        | some u => u.is_active)

/-! Concrete sample store used to instantiate the theorems. -/

def exUser : User :=
  { id := 1, email := "alice@example.com", hashed_password := "hashA", is_active := true }

def exUser2 : User :=
  { id := 2, email := "bob@example.com", hashed_password := "hashB", is_active := true }

def exKey : APIKey :=
  { id := 1, user_id := 1, key_value := "lora_abc", last_used_at := none,
    expires_at := none, is_active := true }

def exKeyOrphan : APIKey :=
  { id := 2, user_id := 99, key_value := "lora_orphan", last_used_at := none,
    expires_at := none, is_active := true }

def exReading1 : SensorReading :=
  { id := 0, user_id := 1, gateway_id := "GW-1", node_id := "N-1", timestamp := 100,
    humidity := none, moisture := none, temperature := some 25, battery_voltage := none,
    measurements := none, created_at := 100 }

def exReading2 : SensorReading :=
  { id := 1, user_id := 2, gateway_id := "GW-2", node_id := "N-2", timestamp := 200,
    humidity := none, moisture := none, temperature := none, battery_voltage := none,
    measurements := none, created_at := 200 }

def exReading3 : SensorReading :=
  { id := 2, user_id := 1, gateway_id := "GW-1", node_id := "N-2", timestamp := 150,
    humidity := some 65, moisture := none, temperature := none, battery_voltage := none,
    measurements := none, created_at := 150 }

def exDB : DB :=
  { users := [exUser, exUser2]
    api_keys := [exKey, exKeyOrphan]
    readings := [exReading1, exReading2, exReading3] }

def exInput : SensorDataInput :=
  { gateway_id := "GW-1", node_id := "N-1", timestamp := 300, humidity := none,
    moisture := none, temperature := some 26, battery_voltage := none, measurements := none }

def exJWT : JWT :=
  { signedWith := SECRET_KEY, sub := some "alice@example.com", exp := 5000 }

/-- C1: Tenant isolation — for every principal and every combination of the
optional filters, every row returned by the list, distinct-gateways and
distinct-nodes operations is owned by the requesting principal, and the
stats aggregate depends only on (hence counts only) the principal's own
rows; no read operation returns or counts a row owned by another
principal. -/
theorem tenant_isolation (db : DB) (uid : Nat) (gateway_id node_id : Option String)
    (limit skip : Int) (hours : Option Int) (now : Int) :
    (∀ rows, get_sensor_data db uid gateway_id node_id limit skip hours now = Except.ok rows →
       ∀ r ∈ rows, r.user_id = uid)
    ∧ (∀ g ∈ get_gateways db uid, ∃ r, r ∈ db.readings ∧ r.user_id = uid ∧ r.gateway_id = g)
    ∧ (∀ n ∈ get_nodes db uid gateway_id, ∃ r, r ∈ db.readings ∧ r.user_id = uid ∧ r.node_id = n)
    ∧ get_stats db uid
        = get_stats { db with readings := db.readings.filter (fun r => r.user_id == uid) } uid := by
  refine ⟨?_, ?_, ?_, ?_⟩
  · intro rows h r hr
    unfold get_sensor_data at h
    split_ifs at h
    any_goals cases h
    have hr1 : r ∈ sortByTimestampDesc (eligibleReadings db uid gateway_id node_id hours now) :=
      List.mem_of_mem_drop (List.mem_of_mem_take hr)
    have hr2 := mem_sortByTimestampDesc hr1
    have hr3 := List.mem_filter.mp hr2
    have hmatch := hr3.2
    simp only [readingMatches, Bool.and_eq_true] at hmatch
    exact beq_iff_eq.mp hmatch.1.1.1
  · intro g hg
    rcases List.mem_map.mp (List.mem_dedup.mp hg) with ⟨r, hrf, hgid⟩
    rcases List.mem_filter.mp hrf with ⟨hmem, howner⟩
    exact ⟨r, hmem, beq_iff_eq.mp howner, hgid⟩
  · intro n hn
    rcases List.mem_map.mp (List.mem_dedup.mp hn) with ⟨r, hrf, hnid⟩
    rcases List.mem_filter.mp hrf with ⟨hmem, hpred⟩
    simp only [Bool.and_eq_true] at hpred
    exact ⟨r, hmem, beq_iff_eq.mp hpred.1, hnid⟩
  · have hidem :
        (db.readings.filter (fun r => r.user_id == uid)).filter (fun r => r.user_id == uid)
          = db.readings.filter (fun r => r.user_id == uid) := by
      rw [List.filter_filter]
      congr 1
      funext a
      exact Bool.and_self _
    simp only [get_stats]
    rw [hidem]

/-- Witness for C1 at the sample store: a concrete returned row is owned by
principal 1, and the stats of principal 1 ignore other tenants' rows. -/
theorem tenant_isolation_witness :
    exReading3.user_id = 1 ∧
    get_stats exDB 1
      = get_stats { exDB with readings := exDB.readings.filter (fun r => r.user_id == 1) } 1 :=
  ⟨(tenant_isolation exDB 1 none none 100 0 none 0).1 [exReading3, exReading1] rfl
      exReading3 (by decide),
   (tenant_isolation exDB 1 none none 100 0 none 0).2.2.2⟩

def exKeyStr : String := "lora_abc"

def exOrphanKeyStr : String := "lora_orphan"

def exTaskId : String := "task-17"

def exQueueErr : String := "redis connection refused"

theorem apiKeyLookup_updateFirst (k : String) (now : Int) (l : List APIKey) :
    (updateFirst (apiKeyLookup k) (fun a => { a with last_used_at := some now }) l).find?
        (apiKeyLookup k)
      = (l.find? (apiKeyLookup k)).map (fun a => { a with last_used_at := some now }) :=
  find?_updateFirst _ _ (fun x hx => by simpa [apiKeyLookup] using hx) l

theorem ingestPipeline_api_keys (db : DB) (uid : Nat) (d : SensorDataInput) (now : Int)
    (celery_available : Bool) (enqueue : Except String String) (storeOk : Bool) :
    (ingestPipeline db uid d now celery_available enqueue storeOk).1.api_keys = db.api_keys := by
  unfold ingestPipeline directSave
  cases enqueue <;> split_ifs <;> rfl

theorem ingestPipeline_users (db : DB) (uid : Nat) (d : SensorDataInput) (now : Int)
    (celery_available : Bool) (enqueue : Except String String) (storeOk : Bool) :
    (ingestPipeline db uid d now celery_available enqueue storeOk).1.users = db.users := by
  unfold ingestPipeline directSave
  cases enqueue <;> split_ifs <;> rfl

/-- C2: Dual-auth precedence — when a request carries a truthy API key that
resolves to an active, unexpired key with an existing owner, and also a
valid bearer token, the authenticated principal is the key's owner (the
submission runs as that owner), the key's `last_used_at` is set to `now`
and committed (it survives in the resulting store for every queue/store
outcome), and the bearer token is ignored (any other bearer value yields
the identical result). -/
theorem dual_auth_precedence (db : DB) (k : String) (bearer : JWT)
    (d : SensorDataInput) (now : Int) (celery_available : Bool)
    (enqueue : Except String String) (storeOk : Bool) (key : APIKey)
    (owner bearerUser : User)
    (hk : k ≠ "")
    (hfind : db.api_keys.find? (apiKeyLookup k) = some key)
    (hexp : key.expires_at.any (fun e => decide (e < now)) = false)
    (howner : db.users.find? (fun u => u.id == key.user_id) = some owner)
    (hbearer : get_current_user_optional db (some bearer) now = some bearerUser) :
    receive_sensor_data db (some k) (some bearer) d now celery_available enqueue storeOk
        = ingestPipeline
            { db with
                api_keys := updateFirst (apiKeyLookup k)
                  (fun a => { a with last_used_at := some now }) db.api_keys }
            owner.id d now celery_available enqueue storeOk
    ∧ (∀ b2 : Option JWT,
        receive_sensor_data db (some k) b2 d now celery_available enqueue storeOk
          = receive_sensor_data db (some k) (some bearer) d now celery_available enqueue storeOk)
    ∧ (receive_sensor_data db (some k) (some bearer) d now celery_available
          enqueue storeOk).1.api_keys.find? (apiKeyLookup k)
        = some { key with last_used_at := some now } := by
  have hkf : (k == "") = false := beq_eq_false_iff_ne.mpr hk
  have hmain : ∀ b2 : Option JWT,
      receive_sensor_data db (some k) b2 d now celery_available enqueue storeOk
        = ingestPipeline
            { db with
                api_keys := updateFirst (apiKeyLookup k)
                  (fun a => { a with last_used_at := some now }) db.api_keys }
            owner.id d now celery_available enqueue storeOk := by
    intro b2
    simp only [receive_sensor_data, hkf, Bool.false_eq_true, if_false, hfind, hexp, howner]
  refine ⟨hmain (some bearer), fun b2 => (hmain b2).trans (hmain (some bearer)).symm, ?_⟩
  rw [hmain (some bearer), ingestPipeline_api_keys]
  show (updateFirst (apiKeyLookup k) (fun a => { a with last_used_at := some now })
      db.api_keys).find? (apiKeyLookup k) = some { key with last_used_at := some now }
  rw [apiKeyLookup_updateFirst, hfind]
  rfl

/-- Witness for C2: with both the sample API key and a valid bearer token
supplied, the stored key's `last_used_at` becomes the request time. -/
theorem dual_auth_precedence_witness :
    (receive_sensor_data exDB (some exKeyStr) (some exJWT) exInput 1000 true
        (Except.error exQueueErr) true).1.api_keys.find? (apiKeyLookup exKeyStr)
      = some { exKey with last_used_at := some 1000 } :=
  (dual_auth_precedence exDB exKeyStr exJWT exInput 1000 true (Except.error exQueueErr) true
      exKey exUser exUser (by decide) (by decide) (by decide) (by decide) (by decide)).2.2

/-- C10: An ingestion request carrying an active, unexpired API key whose
recorded owner id matches no user row still gets the key's `last_used_at`
set to the request time and committed; the bearer fallback does not apply;
the request is rejected with the same 401 `Authentication required` error
as a request with no credential at all; and no reading is persisted. -/
theorem orphan_key_auth (db : DB) (k : String) (bearer : Option JWT)
    (d : SensorDataInput) (now : Int) (celery_available : Bool)
    (enqueue : Except String String) (storeOk : Bool) (key : APIKey)
    (hk : k ≠ "")
    (hfind : db.api_keys.find? (apiKeyLookup k) = some key)
    (hexp : key.expires_at.any (fun e => decide (e < now)) = false)
    (hnouser : db.users.find? (fun u => u.id == key.user_id) = none) :
    receive_sensor_data db (some k) bearer d now celery_available enqueue storeOk
        = ({ db with
              api_keys := updateFirst (apiKeyLookup k)
                (fun a => { a with last_used_at := some now }) db.api_keys },
           IngestOutcome.failure 401 msgAuthRequired)
    ∧ (receive_sensor_data db (some k) bearer d now celery_available
          enqueue storeOk).1.readings = db.readings
    ∧ (receive_sensor_data db (some k) bearer d now celery_available
          enqueue storeOk).1.api_keys.find? (apiKeyLookup k)
        = some { key with last_used_at := some now }
    ∧ (receive_sensor_data db (some k) bearer d now celery_available enqueue storeOk).2
        = (receive_sensor_data db none none d now celery_available enqueue storeOk).2 := by
  have hkf : (k == "") = false := beq_eq_false_iff_ne.mpr hk
  have hmain : receive_sensor_data db (some k) bearer d now celery_available enqueue storeOk
      = ({ db with
            api_keys := updateFirst (apiKeyLookup k)
              (fun a => { a with last_used_at := some now }) db.api_keys },
         IngestOutcome.failure 401 msgAuthRequired) := by
    simp only [receive_sensor_data, hkf, Bool.false_eq_true, if_false, hfind, hexp, hnouser]
  refine ⟨hmain, ?_, ?_, ?_⟩
  · rw [hmain]
  · rw [hmain]
    show (updateFirst (apiKeyLookup k) (fun a => { a with last_used_at := some now })
        db.api_keys).find? (apiKeyLookup k) = some { key with last_used_at := some now }
    rw [apiKeyLookup_updateFirst, hfind]
    rfl
  · rw [hmain]
    simp only [receive_sensor_data, get_current_user_optional]

/-- Witness for C10 at the sample store: the orphan key (owner id 99 has no
user row) still gets its `last_used_at` committed. -/
theorem orphan_key_auth_witness :
    (receive_sensor_data exDB (some exOrphanKeyStr) none exInput 500 true
        (Except.ok exTaskId) true).1.api_keys.find? (apiKeyLookup exOrphanKeyStr)
      = some { exKeyOrphan with last_used_at := some 500 } :=
  (orphan_key_auth exDB exOrphanKeyStr none exInput 500 true (Except.ok exTaskId) true
      exKeyOrphan (by decide) (by decide) (by decide) (by decide)).2.2.1

/-- C3: Ingestion availability under queue failure — for an authenticated,
validated submission whose enqueue attempt raises (or whose queue backend
is unavailable so Celery never loaded), the request does not fail: when
the store write itself succeeds, exactly one row is appended synchronously
and the response is a success with `job_id = none`. -/
theorem ingestion_availability (db : DB) (uid : Nat) (d : SensorDataInput) (now : Int)
    (celery_available : Bool) (enqueue : Except String String)
    (hq : celery_available = false ∨ ∃ msg, enqueue = Except.error msg) :
    ingestPipeline db uid d now celery_available enqueue true
        = ({ db with readings := db.readings ++ [mkReading db.readings.length uid d now] },
           IngestOutcome.success msgSaved none)
    ∧ (ingestPipeline db uid d now celery_available enqueue true).1.readings.length
        = db.readings.length + 1 := by
  have hmain : ingestPipeline db uid d now celery_available enqueue true
      = ({ db with readings := db.readings ++ [mkReading db.readings.length uid d now] },
         IngestOutcome.success msgSaved none) := by
    rcases hq with hq | ⟨msg, hq⟩
    · subst hq
      simp [ingestPipeline, directSave]
    · subst hq
      cases celery_available <;> simp [ingestPipeline, directSave]
  exact ⟨hmain, by rw [hmain]; simp⟩

/-- Witness for C3: an enqueue failure at the sample store still yields a
success with `job_id = none` and one extra persisted row. -/
theorem ingestion_availability_witness :
    (ingestPipeline exDB 1 exInput 300 true (Except.error exQueueErr) true).2
        = IngestOutcome.success msgSaved none
    ∧ (ingestPipeline exDB 1 exInput 300 true (Except.error exQueueErr) true).1.readings.length
        = exDB.readings.length + 1 :=
  ⟨by rw [(ingestion_availability exDB 1 exInput 300 true (Except.error exQueueErr)
      (Or.inr ⟨exQueueErr, rfl⟩)).1],
   (ingestion_availability exDB 1 exInput 300 true (Except.error exQueueErr)
      (Or.inr ⟨exQueueErr, rfl⟩)).2⟩

/-- Delay schedule of the first `k` failed attempts: `2^0, …, 2^(k-1)`
seconds. -/
def delaysUpTo (k : Nat) : List Nat :=
  (List.range k).map (fun i => 2 ^ i)

/-- C4 counterexample: a job whose store writes always fail is executed 4
times (one initial attempt plus 3 retries from `max_retries=3`), so the
claim that a job is processed at most 3 total attempts is false. -/
theorem bounded_retry_cex :
    (runIngestionJob (fun _ => false)).attempts = 4
    ∧ ¬ (runIngestionJob (fun _ => false)).attempts ≤ 3 := by
  decide

/-- C4 (amended): every job consumed by the retry worker is processed at
most 4 total attempts (one initial execution plus up to `max_retries = 3`
retries); each transient failure with retry counter `r` reschedules with
delay `2 ^ r` seconds; a job that never persists is abandoned after
exactly 4 attempts with delays 1, 2, 4 seconds and no further retry; a job
that first persists on retry counter `k` took `k + 1` attempts with delays
`2^0 … 2^(k-1)`. -/
theorem bounded_retry (persistOk : Nat → Bool) :
    (runIngestionJob persistOk).attempts ≤ 4
    ∧ ((runIngestionJob persistOk).persisted = false →
        (runIngestionJob persistOk).attempts = 4
        ∧ (runIngestionJob persistOk).delays = [1, 2, 4])
    ∧ ((runIngestionJob persistOk).persisted = true →
        ∃ k, k ≤ 3 ∧ persistOk k = true
          ∧ (runIngestionJob persistOk).attempts = k + 1
          ∧ (runIngestionJob persistOk).delays = delaysUpTo k) := by
  refine ⟨?_, ?_, ?_⟩
  · cases h0 : persistOk 0 <;> cases h1 : persistOk 1 <;> cases h2 : persistOk 2 <;>
      cases h3 : persistOk 3 <;>
      simp [runIngestionJob, save_sensor_data_run, max_retries, h0, h1, h2, h3]
  · intro hper
    cases h0 : persistOk 0 <;> cases h1 : persistOk 1 <;> cases h2 : persistOk 2 <;>
      cases h3 : persistOk 3 <;>
      simp_all [runIngestionJob, save_sensor_data_run, max_retries]
  · intro hper
    cases h0 : persistOk 0
    · cases h1 : persistOk 1
      · cases h2 : persistOk 2
        · cases h3 : persistOk 3
          · simp [runIngestionJob, save_sensor_data_run, max_retries, h0, h1, h2, h3] at hper
          · refine ⟨3, by omega, h3, ?_, ?_⟩ <;>
              simp [runIngestionJob, save_sensor_data_run, max_retries, h0, h1, h2, h3,
                delaysUpTo, List.range_succ]
        · refine ⟨2, by omega, h2, ?_, ?_⟩ <;>
            simp [runIngestionJob, save_sensor_data_run, max_retries, h0, h1, h2,
              delaysUpTo, List.range_succ]
      · refine ⟨1, by omega, h1, ?_, ?_⟩ <;>
          simp [runIngestionJob, save_sensor_data_run, max_retries, h0, h1,
            delaysUpTo, List.range_succ]
    · refine ⟨0, by omega, h0, ?_, ?_⟩ <;>
        simp [runIngestionJob, save_sensor_data_run, max_retries, h0, delaysUpTo]

/-- Witness for C4 (amended) at a concrete schedule: a job failing its
first two writes and succeeding on the third persists after 3 attempts. -/
theorem bounded_retry_witness :
    (runIngestionJob (fun i => decide (2 ≤ i))).persisted = true
    ∧ (runIngestionJob (fun i => decide (2 ≤ i))).attempts ≤ 4 :=
  ⟨by decide, (bounded_retry (fun i => decide (2 ≤ i))).1⟩

/-- Whether a fallible resolution produced a value. -/
def exceptOk {ε α : Type} : Except ε α → Bool
  | Except.ok _ => true
  | Except.error _ => false

/-- C5: Bearer token acceptance iff — the required ("loud") bearer
resolution yields an authenticated principal exactly when the token's
signature verifies under the shared secret, the token is unexpired at
verification time, and its subject resolves to an existing, active
principal at verification time; the principal is the one named by the
subject; and in every other case the request is rejected with an
authentication/authorization error (status 401, or 403 for an inactive
principal). -/
theorem bearer_token_iff (db : DB) (t : JWT) (now : Int) :
    (exceptOk (get_current_user db t now) = true ↔ bearer_accepts_spec db t now = true)
    ∧ (∀ u, get_current_user db t now = Except.ok u →
        t.sub = some u.email ∧ u.is_active = true)
    ∧ (∀ e, get_current_user db t now = Except.error e →
        e.status = 401 ∨ e.status = 403) := by
  by_cases hsig : (t.signedWith == SECRET_KEY) = true
  · by_cases hexp : t.exp < now
    · have hd : decode_token t now = Except.error { status := 401, detail := msgCouldNotValidate } := by
        simp [decode_token, hsig, hexp]
      refine ⟨?_, ?_, ?_⟩
      · simp [get_current_user, hd, exceptOk, bearer_accepts_spec]
        omega
      · intro u hu
        simp [get_current_user, hd] at hu
      · intro e he
        simp [get_current_user, hd] at he
        subst he
        decide
    · have hd : decode_token t now = Except.ok { sub := t.sub, exp := t.exp } := by
        simp [decode_token, hsig, hexp]
      cases hsub : t.sub with
      | none =>
        refine ⟨?_, ?_, ?_⟩
        · simp [get_current_user, hd, hsub, exceptOk, bearer_accepts_spec]
        · intro u hu
          simp [get_current_user, hd, hsub] at hu
        · intro e he
          simp [get_current_user, hd, hsub] at he
          subst he
          decide
      | some email =>
        cases hfind : db.users.find? (fun u => u.email == email) with
        | none =>
          refine ⟨?_, ?_, ?_⟩
          · simp [get_current_user, hd, hsub, hfind, exceptOk, bearer_accepts_spec]
          · intro u hu
            simp [get_current_user, hd, hsub, hfind] at hu
          · intro e he
            simp [get_current_user, hd, hsub, hfind] at he
            subst he
            decide
        | some u =>
          have hemail : u.email = email := by
            have := List.find?_some hfind
            exact beq_iff_eq.mp this
          cases hact : u.is_active with
          | false =>
            refine ⟨?_, ?_, ?_⟩
            · simp [get_current_user, hd, hsub, hfind, hact, exceptOk, bearer_accepts_spec]
            · intro v hv
              simp [get_current_user, hd, hsub, hfind, hact] at hv
            · intro e he
              simp [get_current_user, hd, hsub, hfind, hact] at he
              subst he
              decide
          | true =>
            refine ⟨?_, ?_, ?_⟩
            · simp [get_current_user, hd, hsub, hfind, hact, exceptOk, bearer_accepts_spec,
                hsig]
              omega
            · intro v hv
              simp [get_current_user, hd, hsub, hfind, hact] at hv
              subst hv
              exact ⟨by rw [hemail], hact⟩
            · intro e he
              simp [get_current_user, hd, hsub, hfind, hact] at he
  · have hd : decode_token t now = Except.error { status := 401, detail := msgCouldNotValidate } := by
      simp [decode_token, hsig]
    refine ⟨?_, ?_, ?_⟩
    · simp [get_current_user, hd, exceptOk, bearer_accepts_spec, hsig]
    · intro u hu
      simp [get_current_user, hd] at hu
    · intro e he
      simp [get_current_user, hd] at he
      subst he
      decide

/-- Witness for C5: the sample token signed with the shared secret,
unexpired at time 1000, whose subject is the active sample user, is
accepted. -/
theorem bearer_token_iff_witness :
    exceptOk (get_current_user exDB exJWT 1000) = true :=
  (bearer_token_iff exDB exJWT 1000).1.mpr (by decide)

theorem readingMatches_hours (uid : Nat) (gateway_id node_id : Option String)
    (h now : Int) (r : SensorReading) (hh : h ≠ 0) :
    readingMatches uid gateway_id node_id (some h) now r
      = (readingMatches uid gateway_id node_id none now r
          && decide (now - h * 3600 ≤ r.timestamp)) := by
  have hh0 : (h == 0) = false := by simpa using hh
  simp [readingMatches, hh0]

/-- C6 counterexample: a list request with `limit = 2000` is rejected with
a 422 validation error — it does not succeed, so the limit is not clamped
into [1,1000]. -/
theorem limit_clamp_cex :
    get_sensor_data exDB 1 none none 2000 0 none 0
        = Except.error { status := 422, detail := msgValidation }
    ∧ exceptOk (get_sensor_data exDB 1 none none 2000 0 none 0) = false := by
  exact ⟨rfl, rfl⟩

/-- C6 (amended): the `limit` parameter is validated server-side against
[1,1000] — a request with `limit` outside that range is rejected with a
422 validation error rather than succeeding; a request passing validation
succeeds and returns at most 1000 rows; and when `since-hours` is supplied
(necessarily ≥ 1 after validation), exactly the rows additionally
satisfying `timestamp ≥ now - hours` are eligible. -/
theorem limit_validation (db : DB) (uid : Nat) (gateway_id node_id : Option String)
    (limit skip : Int) (hours : Option Int) (now : Int) :
    (¬ (1 ≤ limit ∧ limit ≤ 1000) →
      get_sensor_data db uid gateway_id node_id limit skip hours now
        = Except.error { status := 422, detail := msgValidation })
    ∧ (1 ≤ limit → limit ≤ 1000 → 0 ≤ skip → (∀ h, hours = some h → 1 ≤ h) →
      ∃ rows, get_sensor_data db uid gateway_id node_id limit skip hours now = Except.ok rows
        ∧ rows.length ≤ 1000)
    ∧ (∀ h, 1 ≤ h → ∀ r,
        r ∈ eligibleReadings db uid gateway_id node_id (some h) now
          ↔ (r ∈ db.readings
             ∧ readingMatches uid gateway_id node_id none now r = true
             ∧ now - h * 3600 ≤ r.timestamp)) := by
  refine ⟨?_, ?_, ?_⟩
  · intro hout
    have hcond : (limit < 1 || 1000 < limit) = true := by
      simp only [Bool.or_eq_true, decide_eq_true_eq]
      omega
    unfold get_sensor_data
    rw [if_pos (by simpa using hcond)]
  · intro hlo hhi hskip hhours
    have hcond : ¬ (limit < 1 || 1000 < limit) = true := by
      simp only [Bool.or_eq_true, decide_eq_true_eq]
      omega
    have hskip' : ¬ skip < 0 := by omega
    have hhours' : ¬ hours.any (fun h => decide (h < 1)) = true := by
      cases hours with
      | none => simp
      | some h =>
        have := hhours h rfl
        simp
        omega
    refine ⟨((sortByTimestampDesc
        (eligibleReadings db uid gateway_id node_id hours now)).drop skip.toNat).take
          limit.toNat, ?_, ?_⟩
    · unfold get_sensor_data
      rw [if_neg hcond, if_neg hskip', if_neg hhours']
    · calc (((sortByTimestampDesc
            (eligibleReadings db uid gateway_id node_id hours now)).drop skip.toNat).take
              limit.toNat).length
          ≤ limit.toNat := List.length_take_le _ _
      _ ≤ 1000 := by omega
  · intro h hh r
    rw [eligibleReadings, List.mem_filter,
      readingMatches_hours uid gateway_id node_id h now r (by omega)]
    simp [and_assoc]

/-- Witness for C6 (amended): at the sample store, an over-large limit is
rejected with a 422 validation error. -/
theorem limit_validation_witness :
    get_sensor_data exDB 1 none none 2000 5 (some 24) 0
      = Except.error { status := 422, detail := msgValidation } :=
  (limit_validation exDB 1 none none 2000 5 (some 24) 0).1 (by omega)

def exTieA : SensorReading :=
  { id := 0, user_id := 1, gateway_id := "GW-1", node_id := "N-1", timestamp := 100,
    humidity := none, moisture := none, temperature := none, battery_voltage := none,
    measurements := none, created_at := 100 }

def exTieB : SensorReading :=
  { id := 1, user_id := 1, gateway_id := "GW-1", node_id := "N-2", timestamp := 100,
    humidity := none, moisture := none, temperature := none, battery_voltage := none,
    measurements := none, created_at := 100 }

def exTieDB : DB :=
  { users := [exUser], api_keys := [], readings := [exTieA, exTieB] }

/-- C7 counterexample: the list query orders by timestamp only, with no
secondary sort key, so with two equal-timestamp rows inserted as id 0 then
id 1 the reversed list `[exTieB, exTieA]` is an admissible query result —
a timestamp-sorted permutation of the eligible rows — whose two
equal-timestamp rows do not appear in insertion order.  The claimed
stable insertion-order tie-break is therefore not guaranteed by the
code. -/
theorem list_ordering_cex :
    admissibleOrdering (eligibleReadings exTieDB 1 none none none 0) [exTieB, exTieA]
    ∧ exTieA.timestamp = exTieB.timestamp
    ∧ ¬ List.Pairwise (fun a b =>
          b.timestamp ≤ a.timestamp ∧ (a.timestamp = b.timestamp → a.id < b.id))
        [exTieB, exTieA] := by
  refine ⟨⟨by decide, by decide⟩, by decide, by decide⟩

/-- C7 (amended): for every principal and every filter combination, every
page of every admissible query result is sorted newest timestamp first
and drawn from the eligible rows; the relative order of equal-timestamp
rows is unspecified by the code (the query has no secondary sort key), so
equal-timestamp rows need not appear in insertion order.  The
deterministic model sort is itself one admissible result. -/
theorem list_ordering_amended (db : DB) (uid : Nat) (gateway_id node_id : Option String)
    (hours : Option Int) (now : Int) (limit skip : Nat) (l : List SensorReading)
    (hadm : admissibleOrdering (eligibleReadings db uid gateway_id node_id hours now) l) :
    ((l.drop skip).take limit).Pairwise (fun a b => b.timestamp ≤ a.timestamp)
    ∧ (∀ r ∈ (l.drop skip).take limit,
        r ∈ eligibleReadings db uid gateway_id node_id hours now)
    ∧ admissibleOrdering (eligibleReadings db uid gateway_id node_id hours now)
        (sortByTimestampDesc (eligibleReadings db uid gateway_id node_id hours now)) := by
  refine ⟨?_, ?_, admissible_sortByTimestampDesc _⟩
  · exact List.Pairwise.sublist
      ((List.take_sublist _ _).trans (List.drop_sublist _ _)) hadm.2
  · intro r hr
    exact hadm.1.mem_iff.mp (List.mem_of_mem_drop (List.mem_of_mem_take hr))

/-- Witness for C7 (amended): the tied admissible result `[exTieB,
exTieA]` satisfies the amended statement, and its first row is an
eligible row of principal 1. -/
theorem list_ordering_amended_witness :
    exTieB ∈ eligibleReadings exTieDB 1 none none none 0 :=
  (list_ordering_amended exTieDB 1 none none none 0 100 0 [exTieB, exTieA]
      ⟨by decide, by decide⟩).2.1 exTieB (by decide)

def exEmailA : String := "alice@example.com"

def exGhostEmail : String := "ghost@example.com"

def exPwA : String := "hashA"

def exPwWrong : String := "nope"

/-- Run a sequence of login requests from one client address through the
endpoint, threading the limiter state, and collect the responses. -/
def runLogins (verify : String → String → Bool) (users : List User)
    (st : LimiterState) : List (Int × String × String) → List LoginResult
  | [] => []
  | (t, e, p) :: rest =>
    ((login verify users st t e p).2) :: runLogins verify users (login verify users st t e p).1 rest

/-- C8 (limiter spec-modelled): from a fresh window for one client
address, five login requests within a rolling 60-second window are each
processed under the normal auth rules (whatever their credentials), the
sixth request inside the same window is rejected with the rate-limited
429 response regardless of its credentials, and a request made once the
window has elapsed (at least 60 seconds after the first hit) is processed
normally again. -/
theorem login_rate_limit (verify : String → String → Bool) (users : List User)
    (t1 t2 t3 t4 t5 t6 t7 : Int)
    (e1 p1 e2 p2 e3 p3 e4 p4 e5 p5 e6 p6 e7 p7 : String)
    (h12 : t1 ≤ t2) (h23 : t2 ≤ t3) (h34 : t3 ≤ t4) (h45 : t4 ≤ t5) (h56 : t5 ≤ t6)
    (hwin : t6 < t1 + 60) (h7 : t1 + 60 ≤ t7) :
    runLogins verify users { hits := [] }
        [(t1, e1, p1), (t2, e2, p2), (t3, e3, p3), (t4, e4, p4), (t5, e5, p5),
         (t6, e6, p6), (t7, e7, p7)]
      = [loginHandler verify users t1 e1 p1,
         loginHandler verify users t2 e2 p2,
         loginHandler verify users t3 e3 p3,
         loginHandler verify users t4 e4 p4,
         loginHandler verify users t5 e5 p5,
         LoginResult.err 429 msgTooMany,
         loginHandler verify users t7 e7 p7] := by
  have d21 : decide (t2 < t1 + 60) = true := by simp only [decide_eq_true_eq]; omega
  have d31 : decide (t3 < t1 + 60) = true := by simp only [decide_eq_true_eq]; omega
  have d32 : decide (t3 < t2 + 60) = true := by simp only [decide_eq_true_eq]; omega
  have d41 : decide (t4 < t1 + 60) = true := by simp only [decide_eq_true_eq]; omega
  have d42 : decide (t4 < t2 + 60) = true := by simp only [decide_eq_true_eq]; omega
  have d43 : decide (t4 < t3 + 60) = true := by simp only [decide_eq_true_eq]; omega
  have d51 : decide (t5 < t1 + 60) = true := by simp only [decide_eq_true_eq]; omega
  have d52 : decide (t5 < t2 + 60) = true := by simp only [decide_eq_true_eq]; omega
  have d53 : decide (t5 < t3 + 60) = true := by simp only [decide_eq_true_eq]; omega
  have d54 : decide (t5 < t4 + 60) = true := by simp only [decide_eq_true_eq]; omega
  have d61 : decide (t6 < t1 + 60) = true := by simp only [decide_eq_true_eq]; omega
  have d62 : decide (t6 < t2 + 60) = true := by simp only [decide_eq_true_eq]; omega
  have d63 : decide (t6 < t3 + 60) = true := by simp only [decide_eq_true_eq]; omega
  have d64 : decide (t6 < t4 + 60) = true := by simp only [decide_eq_true_eq]; omega
  have d65 : decide (t6 < t5 + 60) = true := by simp only [decide_eq_true_eq]; omega
  have s1 : login verify users { hits := [] } t1 e1 p1
      = ({ hits := [t1] }, loginHandler verify users t1 e1 p1) := by
    simp [login, rl_allow]
  have s2 : login verify users { hits := [t1] } t2 e2 p2
      = ({ hits := [t2, t1] }, loginHandler verify users t2 e2 p2) := by
    simp [login, rl_allow, d21]
  have s3 : login verify users { hits := [t2, t1] } t3 e3 p3
      = ({ hits := [t3, t2, t1] }, loginHandler verify users t3 e3 p3) := by
    simp [login, rl_allow, d31, d32]
  have s4 : login verify users { hits := [t3, t2, t1] } t4 e4 p4
      = ({ hits := [t4, t3, t2, t1] }, loginHandler verify users t4 e4 p4) := by
    simp [login, rl_allow, d41, d42, d43]
  have s5 : login verify users { hits := [t4, t3, t2, t1] } t5 e5 p5
      = ({ hits := [t5, t4, t3, t2, t1] }, loginHandler verify users t5 e5 p5) := by
    simp [login, rl_allow, d51, d52, d53, d54]
  have s6 : login verify users { hits := [t5, t4, t3, t2, t1] } t6 e6 p6
      = ({ hits := [t5, t4, t3, t2, t1] }, LoginResult.err 429 msgTooMany) := by
    simp [login, rl_allow, d61, d62, d63, d64, d65]
  have hp1 : decide (t7 < t1 + 60) = false := by
    simp only [decide_eq_false_iff_not]
    omega
  have hfl : List.filter (fun t => decide (t7 < t + 60)) [t5, t4, t3, t2, t1]
      = List.filter (fun t => decide (t7 < t + 60)) [t5, t4, t3, t2] := by
    show List.filter (fun t => decide (t7 < t + 60)) ([t5, t4, t3, t2] ++ [t1]) = _
    rw [List.filter_append]
    simp [hp1]
  have hlen : (List.filter (fun t => decide (t7 < t + 60)) [t5, t4, t3, t2, t1]).length < 5 := by
    rw [hfl]
    exact lt_of_le_of_lt (List.length_filter_le _ _) (by norm_num)
  have s7 : (login verify users { hits := [t5, t4, t3, t2, t1] } t7 e7 p7).2
      = loginHandler verify users t7 e7 p7 := by
    simp [login, rl_allow, hlen]
  simp [runLogins, s1, s2, s3, s4, s5, s6, s7]

/-- Witness for C8: six requests with valid credentials at seconds
0,10,20,30,40,50 — the sixth is rate limited despite the valid password —
followed by a request at second 60 that is processed normally. -/
theorem login_rate_limit_witness :
    runLogins (fun p h => p == h) exDB.users { hits := [] }
        [(0, exEmailA, exPwA), (10, exEmailA, exPwA), (20, exEmailA, exPwA),
         (30, exEmailA, exPwA), (40, exEmailA, exPwA), (50, exEmailA, exPwA),
         (60, exEmailA, exPwA)]
      = [loginHandler (fun p h => p == h) exDB.users 0 exEmailA exPwA,
         loginHandler (fun p h => p == h) exDB.users 10 exEmailA exPwA,
         loginHandler (fun p h => p == h) exDB.users 20 exEmailA exPwA,
         loginHandler (fun p h => p == h) exDB.users 30 exEmailA exPwA,
         loginHandler (fun p h => p == h) exDB.users 40 exEmailA exPwA,
         LoginResult.err 429 msgTooMany,
         loginHandler (fun p h => p == h) exDB.users 60 exEmailA exPwA] :=
  login_rate_limit (fun p h => p == h) exDB.users 0 10 20 30 40 50 60
    exEmailA exPwA exEmailA exPwA exEmailA exPwA exEmailA exPwA exEmailA exPwA
    exEmailA exPwA exEmailA exPwA
    (by omega) (by omega) (by omega) (by omega) (by omega) (by omega) (by omega)

/-- C9: Login failure indistinguishability — a failed login naming an
email with no account and a failed login naming an existing account with a
wrong password produce identical responses (including limiter state), and
whenever the limiter admits the request that response is the uniform 401
with the generic message, so the two cases cannot be told apart. -/
theorem login_failure_indistinguishable (verify : String → String → Bool)
    (users : List User) (st : LimiterState) (now : Int)
    (e1 p1 e2 p2 : String) (u : User)
    (h1 : users.find? (fun v => v.email == e1) = none)
    (h2 : users.find? (fun v => v.email == e2) = some u)
    (hpw : verify p2 u.hashed_password = false) :
    login verify users st now e1 p1 = login verify users st now e2 p2
    ∧ ((rl_allow 5 60 st now).1 = true →
        (login verify users st now e1 p1).2 = LoginResult.err 401 msgBadLogin) := by
  have ha1 : authenticate_user verify users e1 p1 = none := by
    simp [authenticate_user, h1]
  have ha2 : authenticate_user verify users e2 p2 = none := by
    simp [authenticate_user, h2, hpw]
  rcases hrl : rl_allow 5 60 st now with ⟨allowed, st1⟩
  constructor
  · unfold login
    rw [hrl]
    cases allowed <;> simp [loginHandler, ha1, ha2]
  · intro hall
    simp at hall
    subst hall
    simp only [login, hrl]
    simp [loginHandler, ha1]

/-- Witness for C9: at the sample store, a login for an unknown email and
a login for the real user with a wrong password return the same uniform
401 response. -/
theorem login_failure_indistinguishable_witness :
    login (fun p h => p == h) exDB.users { hits := [] } 100 exGhostEmail exPwWrong
      = login (fun p h => p == h) exDB.users { hits := [] } 100 exEmailA exPwWrong :=
  (login_failure_indistinguishable (fun p h => p == h) exDB.users { hits := [] } 100
      exGhostEmail exPwWrong exEmailA exPwWrong exUser
      (by decide) (by decide) (by decide)).1
